import Mathlib

/-!
Verification of the Happy Places placement-ledger system (src/Happy-Places.py).

The SQLite-backed store is embedded shallowly: each table is a list of rows,
each operation is a pure function on the store state.  Fallible writes (the
CHECK constraints on items.category and placements.distribution_type) return
an Except value: an error models the IntegrityError raised before any row is
written, so the caller keeps the unchanged state.

Modelling conventions, matching the Python source:
  - TEXT timestamps are Lean Strings ordered by the String linear order,
    matching byte-wise TEXT comparison used by ORDER BY / MAX on ASCII
    ISO-8601 strings.
  - ISO purchase dates are abstracted to integer day numbers; the value
    datetime.now() is a day-number parameter now_days, and
    (now - purchase).days becomes integer subtraction.
  - REAL arithmetic (365.25 divisions, the 0.2 lifespan factor, round(x, 1))
    is carried out exactly in the rationals; round(x, 1) is rounding to the
    nearest tenth.  No claim below depends on binary floating-point
    artifacts.
  - The metadata JSON blob is opaque: json.dumps output is an uninterpreted
    String.
  - Python truthiness tests in the source are modelled explicitly where they
    occur (Option.isSome for strings known non-empty, a zero test for
    numbers).
-/

namespace HappyPlaces

/-- Allowed item categories: the CHECK constraint on items.category. -/
def validCategories : List String := ["good_stuff", "refillable", "disposable"]

/-- Allowed distribution types: the CHECK constraint on
placements.distribution_type. -/
def validDistributionTypes : List String :=
  ["stack", "spread", "lose", "discard", "placed"]

/-- A row of the items table. -/
structure Item where
  item_id : String
  label : String
  category : String
  purchase_date : Option Int
  expected_lifespan_years : Option ℚ
  current_quantity : Option Int
  refill_threshold : Option Int
  usage_rate_per_day : Option ℚ
  metadata : String
deriving DecidableEq

/-- A row of the placements table (the surrogate autoincrement key is
immaterial to every claim and omitted; list position plays its role). -/
structure Placement where
  item_id : String
  zone : String
  distribution_type : String
  routine : Option String
  motive : Option String
  timestamp : String
  metadata : String
deriving DecidableEq

/-- A row of the co_presence table. -/
structure CoPresence where
  item_a : String
  item_b : String
  zone : String
  timestamp : String
deriving DecidableEq

/-- A row of the zones table. -/
structure ZoneRec where
  zone_id : String
  zone_name : String
  description : String
deriving DecidableEq

/-- The whole store: the four tables created by _init_db. -/
structure HPState where
  items : List Item
  placements : List Placement
  co_presence : List CoPresence
  zones : List ZoneRec
deriving DecidableEq

/-- A freshly initialized database. -/
def emptyState : HPState := ⟨[], [], [], []⟩

/-- register_item: validates the category CHECK constraint, then
INSERT OR REPLACE by primary key item_id (full replacement, no merge). -/
def register_item (st : HPState) (item_id label category : String)
    (purchase_date : Option Int) (expected_lifespan_years : Option ℚ)
    (current_quantity refill_threshold : Option Int)
    (usage_rate_per_day : Option ℚ) (metadata : String) :
    Except String HPState :=
  if category ∈ validCategories then
    Except.ok ⟨st.items.filter (fun i => i.item_id != item_id) ++
        [⟨item_id, label, category, purchase_date, expected_lifespan_years,
          current_quantity, refill_threshold, usage_rate_per_day, metadata⟩],
      st.placements, st.co_presence, st.zones⟩
  else
    Except.error "CHECK constraint failed: category"

/-- record_placement: validates the distribution_type CHECK constraint (the
placements INSERT is the first statement executed, so an invalid value
aborts before any row is written), appends one placement row, then for each
listed co-present item appends the forward and the reverse co-presence row,
all with the placement's zone and timestamp.  A None seen_with and an empty
list behave identically in the source (`if seen_with:`), so seen_with is a
plain list here.  The timestamp default (datetime.utcnow) is a caller-side
value and is passed explicitly. -/
def record_placement (st : HPState) (item_id zone distribution_type : String)
    (routine motive : Option String) (seen_with : List String)
    (timestamp : String) (metadata : String) : Except String HPState :=
  if distribution_type ∈ validDistributionTypes then
    Except.ok ⟨st.items,
      st.placements ++
        [⟨item_id, zone, distribution_type, routine, motive, timestamp,
          metadata⟩],
      st.co_presence ++
        seen_with.flatMap (fun other_id =>
          [⟨item_id, other_id, zone, timestamp⟩,
           ⟨other_id, item_id, zone, timestamp⟩]),
      st.zones⟩
  else
    Except.error "CHECK constraint failed: distribution_type"

/-- register_zone: INSERT OR REPLACE by primary key zone_id. -/
def register_zone (st : HPState) (zone_id zone_name description : String) :
    Except String HPState :=
  Except.ok ⟨st.items, st.placements, st.co_presence,
    st.zones.filter (fun z => z.zone_id != zone_id) ++
      [⟨zone_id, zone_name, description⟩]⟩

/-- The order used on TEXT timestamps: the String linear order (lexicographic
on the character sequence, agreeing with byte-wise TEXT comparison on
UTF-8). -/
def tsLe (a b : String) : Prop := a ≤ b

/-- A kernel-reducible decision procedure for the timestamp order, via the
structural order on character lists. -/
instance tsLeDec : DecidableRel tsLe :=
  fun a b =>
    decidable_of_iff (¬ b.toList < a.toList)
      ((not_congr String.lt_iff_toList_lt).symm)

/-- ORDER BY timestamp DESC as a relation on placements. -/
def placementGe (a b : Placement) : Prop := tsLe b.timestamp a.timestamp

instance : DecidableRel placementGe :=
  fun a b => inferInstanceAs (Decidable (tsLe b.timestamp a.timestamp))

instance : IsTotal Placement placementGe :=
  ⟨fun a b => le_total b.timestamp a.timestamp⟩

instance : IsTrans Placement placementGe :=
  ⟨fun _ _ _ hab hbc => le_trans hbc hab⟩

/-- ORDER BY timestamp DESC over a list of placements. -/
def sortPlacementsDesc (l : List Placement) : List Placement :=
  l.insertionSort placementGe

/-- Python round(x, 1): rounding to the nearest tenth, done exactly in ℚ. -/
def round1 (x : ℚ) : ℚ := (round (10 * x) : ℤ) / 10

/-- Python `or 0` on a nullable INTEGER column (None and 0 both map to 0). -/
def orZeroInt (x : Option Int) : Int := x.getD 0

/-- Python `or 0` on a nullable REAL column. -/
def orZeroRat (x : Option ℚ) : ℚ := x.getD 0

/-- Python truthiness of a nullable REAL: None and 0.0 are falsy. -/
def truthyRat : Option ℚ → Bool
  | none => false
  | some v => v != 0

/-- The lifecycle block of item_status (computed when the category is
good_stuff and purchase_date and expected_lifespan_years are truthy). -/
structure LifecycleInfo where
  purchase_date : Int
  age_years : ℚ
  expected_lifespan_years : ℚ
  remaining_years : ℚ
  health_percent : ℚ
deriving DecidableEq

/-- The refill_status block of item_status. -/
structure RefillStatus where
  current_quantity : Int
  refill_threshold : Int
  needs_refill : Bool
  days_remaining : Option ℚ
deriving DecidableEq

/-- The current_placement block of item_status. -/
structure CurrentPlacement where
  zone : String
  distribution_type : String
  routine : Option String
  motive : Option String
  timestamp : String
deriving DecidableEq

/-- The dictionary returned by item_status. -/
structure ItemStatusResult where
  item_id : String
  label : String
  category : String
  metadata : String
  lifecycle : Option LifecycleInfo
  refill_status : Option RefillStatus
  current_placement : Option CurrentPlacement
deriving DecidableEq

/-- The lifecycle computation of item_status, lines 243-255 of the source:
age_years = (now - purchase).days / 365.25, remaining floored at 0, fields
rounded to one decimal for display. -/
def lifecycleOf (now_days : Int) (item : Item) : Option LifecycleInfo :=
  match item.purchase_date, item.expected_lifespan_years with
  | some pd, some lifespan_years =>
    let age_years : ℚ := ((now_days - pd : ℤ) : ℚ) / (365.25 : ℚ)
    let remaining_years : ℚ := max 0 (lifespan_years - age_years)
    some ⟨pd, round1 age_years, lifespan_years, round1 remaining_years,
      round1 (remaining_years / lifespan_years * 100)⟩
  | _, _ => none

/-- The refill computation of item_status, lines 257-269 of the source.
days_remaining is quantity / usage_rate when usage_rate > 0 else None, and
the rendered field applies Python truthiness to that value
(`round(days_remaining, 1) if days_remaining else None`), so a 0 value is
reported as None. -/
def refillStatusOf (item : Item) : RefillStatus :=
  let quantity := orZeroInt item.current_quantity
  let threshold := orZeroInt item.refill_threshold
  let usage_rate := orZeroRat item.usage_rate_per_day
  let days_remaining : Option ℚ :=
    if usage_rate > 0 then some ((quantity : ℚ) / usage_rate) else none
  ⟨quantity, threshold, decide (quantity ≤ threshold),
    match days_remaining with
    | some d => if d ≠ 0 then some (round1 d) else none
    | none => none⟩

/-- The if / elif dispatch of item_status on the category: the lifecycle
block needs truthy purchase_date (a present ISO date string is non-empty,
hence truthy) and truthy lifespan; otherwise the elif tests for
refillable. -/
def statusProjections (now_days : Int) (item : Item) :
    Option LifecycleInfo × Option RefillStatus :=
  if item.category == "good_stuff" && item.purchase_date.isSome &&
      truthyRat item.expected_lifespan_years then
    (lifecycleOf now_days item, none)
  else if item.category == "refillable" then
    (none, some (refillStatusOf item))
  else
    (none, none)

/-- item_status: look up the item by primary key (fetchone on the key column
is find?), take the most recent placement, and attach the per-category
blocks. -/
def item_status (st : HPState) (now_days : Int) (item_id : String) :
    Option ItemStatusResult :=
  match st.items.find? (fun i => i.item_id == item_id) with
  | none => none
  | some item =>
    let placement :=
      (sortPlacementsDesc
        (st.placements.filter (fun p => p.item_id == item_id))).head?
    let proj := statusProjections now_days item
    some ⟨item_id, item.label, item.category, item.metadata, proj.1, proj.2,
      placement.map (fun p =>
        ⟨p.zone, p.distribution_type, p.routine, p.motive, p.timestamp⟩)⟩

/-- placement_history: the item's placements, newest first, LIMIT limit.
The SQL projects the row columns; the full rows are returned here. -/
def placement_history (st : HPState) (item_id : String) (limit : Nat) :
    List Placement :=
  (sortPlacementsDesc
    (st.placements.filter (fun p => p.item_id == item_id))).take limit

/-- One result row of recent_neighbors: the SELECT list
(c.item_b, i.label, c.zone, c.timestamp). -/
structure NeighborRow where
  item_id : String
  label : String
  zone : String
  timestamp : String
deriving DecidableEq

/-- The join of co_presence rows with item_a = item_id against the items
table on item_b; item_id is the items primary key, so the join partner is
find?. -/
def neighborRows (st : HPState) (item_id : String) : List NeighborRow :=
  st.co_presence.filterMap (fun c =>
    if c.item_a == item_id then
      (st.items.find? (fun i => i.item_id == c.item_b)).map
        (fun i => ⟨c.item_b, i.label, c.zone, c.timestamp⟩)
    else none)

/-- ORDER BY timestamp DESC as a relation on neighbor rows. -/
def neighborGe (a b : NeighborRow) : Prop := tsLe b.timestamp a.timestamp

instance : DecidableRel neighborGe :=
  fun a b => inferInstanceAs (Decidable (tsLe b.timestamp a.timestamp))

instance : IsTotal NeighborRow neighborGe :=
  ⟨fun a b => le_total b.timestamp a.timestamp⟩

instance : IsTrans NeighborRow neighborGe :=
  ⟨fun _ _ _ hab hbc => le_trans hbc hab⟩

/-- recent_neighbors: SELECT DISTINCT over the four projected columns (whole
rows, not neighbor identities), then ORDER BY timestamp DESC LIMIT limit. -/
def recent_neighbors (st : HPState) (item_id : String) (limit : Nat) :
    List NeighborRow :=
  (((neighborRows st item_id).dedup).insertionSort neighborGe).take limit

/-- One result row of items_in_zone: the SELECT list
(i.item_id, i.label, i.category, p.distribution_type, p.timestamp). -/
structure ZoneItemRow where
  item_id : String
  label : String
  category : String
  distribution_type : String
  timestamp : String
deriving DecidableEq

/-- The correlated subquery condition p.timestamp = (SELECT MAX(timestamp)
FROM placements WHERE item_id = i.item_id): since p itself is one of that
item's placements, its timestamp equals the maximum exactly when every
placement of the item has timestamp ≤ p.timestamp. -/
def isLatestForItem (st : HPState) (p : Placement) : Bool :=
  st.placements.all (fun q =>
    q.item_id != p.item_id || decide (tsLe q.timestamp p.timestamp))

/-- items_in_zone: DISTINCT rows of the items-placements join restricted to
placements in the zone whose timestamp is the item's overall maximum. -/
def items_in_zone (st : HPState) (zone : String) : List ZoneItemRow :=
  (st.placements.filterMap (fun p =>
    if p.zone == zone && isLatestForItem st p then
      (st.items.find? (fun i => i.item_id == p.item_id)).map
        (fun i => ⟨i.item_id, i.label, i.category, p.distribution_type,
          p.timestamp⟩)
    else none)).dedup

/-- The two aggregates of distribution_patterns. -/
structure DistributionPatterns where
  overall_counts : List (String × Nat)
  by_zone : List ((String × String) × Nat)
deriving DecidableEq

/-- distribution_patterns: GROUP BY distribution_type counts over the whole
placements table, and GROUP BY (zone, distribution_type) counts; group keys
are the distinct values present. -/
def distribution_patterns (st : HPState) : DistributionPatterns :=
  ⟨((st.placements.map (fun p => p.distribution_type)).dedup).map
      (fun d => (d, st.placements.countP (fun p => p.distribution_type == d))),
    ((st.placements.map (fun p => (p.zone, p.distribution_type))).dedup).map
      (fun zd => (zd,
        st.placements.countP (fun p => (p.zone, p.distribution_type) == zd)))⟩

/-- One refill_needed alert of items_needing_attention. -/
structure RefillAlert where
  item_id : String
  label : String
  current_quantity : Int
  refill_threshold : Int
deriving DecidableEq

/-- One replacement_soon alert of items_needing_attention. -/
structure ReplacementAlert where
  item_id : String
  label : String
  remaining_years : ℚ
  health_percent : ℚ
deriving DecidableEq

/-- The result of items_needing_attention. -/
structure AttentionResult where
  refill_needed : List RefillAlert
  replacement_soon : List ReplacementAlert
deriving DecidableEq

/-- The refill_needed list: the SQL filter
category = refillable AND current_quantity <= refill_threshold, which under
SQL three-valued logic excludes rows where either operand is NULL. -/
def refillAlerts (st : HPState) : List RefillAlert :=
  st.items.filterMap (fun i =>
    match i.current_quantity, i.refill_threshold with
    | some q, some t =>
      if i.category == "refillable" && decide (q ≤ t) then
        some (⟨i.item_id, i.label, q, t⟩ : RefillAlert)
      else none
    | _, _ => none)

/-- The remaining_years value of the replacement scan:
lifespan − (now − purchase).days / 365.25, unfloored (no max with 0 in this
code path, unlike item_status). -/
def remainingYears (now_days pd : Int) (lifespan_years : ℚ) : ℚ :=
  lifespan_years - ((now_days - pd : ℤ) : ℚ) / (365.25 : ℚ)

/-- The replacement_soon list: good_stuff items with both purchase_date and
expected_lifespan_years non-NULL whose remaining_years is below 20% of the
lifespan and strictly positive (the condition
`remaining_years < lifespan_years * 0.2 and remaining_years > 0`). -/
def replacementAlerts (st : HPState) (now_days : Int) :
    List ReplacementAlert :=
  st.items.filterMap (fun i =>
    match i.purchase_date, i.expected_lifespan_years with
    | some pd, some lifespan_years =>
      if i.category == "good_stuff" then
        if remainingYears now_days pd lifespan_years <
            lifespan_years * (0.2 : ℚ) ∧
            remainingYears now_days pd lifespan_years > 0 then
          some (⟨i.item_id, i.label,
            round1 (remainingYears now_days pd lifespan_years),
            round1 (remainingYears now_days pd lifespan_years /
              lifespan_years * 100)⟩ : ReplacementAlert)
        else none
      else none
    | _, _ => none)

/-- items_needing_attention returns both alert lists. -/
def items_needing_attention (st : HPState) (now_days : Int) :
    AttentionResult :=
  ⟨refillAlerts st, replacementAlerts st now_days⟩

/-- Unwrap a successful write; used only to build concrete example states. -/
def runOk (e : Except String HPState) : HPState :=
  match e with
  | Except.ok st => st
  | Except.error _ => emptyState

/-- C3: register_item with a category outside the enumerated set and
record_placement with a distribution_type outside the enumerated set each
fail before any row is written.  In this embedding a failing write returns
Except.error and produces no successor state at all, so the caller's store
(items, placements, co_presence) is exactly as before the call: nothing
partial is committed.  In the source the CHECK constraint aborts the very
first INSERT of the transaction with an IntegrityError. -/
theorem C3_invalid_enum_rejected :
    (∀ (st : HPState) (iid lbl cat : String) (pd : Option Int) (ls : Option ℚ)
        (q t : Option Int) (ur : Option ℚ) (md : String),
      cat ∉ validCategories →
        register_item st iid lbl cat pd ls q t ur md =
          Except.error "CHECK constraint failed: category") ∧
    (∀ (st : HPState) (iid z dt : String) (rt mv : Option String)
        (sw : List String) (ts md : String),
      dt ∉ validDistributionTypes →
        record_placement st iid z dt rt mv sw ts md =
          Except.error "CHECK constraint failed: distribution_type") := by
  constructor
  · intro st iid lbl cat pd ls q t ur md h
    unfold register_item
    rw [if_neg h]
  · intro st iid z dt rt mv sw ts md h
    unfold record_placement
    rw [if_neg h]

/-- C3 witness: a concrete invalid category and a concrete invalid
distribution_type are both rejected. -/
theorem C3_witness :
    register_item emptyState "a" "A" "weird" none none none none none "" =
      Except.error "CHECK constraint failed: category" ∧
    record_placement emptyState "a" "z" "tossed" none none [] "t" "" =
      Except.error "CHECK constraint failed: distribution_type" :=
  ⟨C3_invalid_enum_rejected.1 emptyState "a" "A" "weird" none none none none
      none "" (by decide),
    C3_invalid_enum_rejected.2 emptyState "a" "z" "tossed" none none [] "t" ""
      (by decide)⟩

/-- C4: a valid record_placement appends exactly one placement row and, for
each identity listed in seen_with, exactly the forward row (A, X) and the
reverse row (X, A), both with the placement's zone and timestamp; an empty
seen_with contributes no co-presence row (flatMap over [] is []).  The other
two write operations never change co_presence, and the query operations are
pure functions of the state, so record_placement is the only source of
co-presence rows. -/
theorem C4_co_presence_pairs :
    (∀ (st : HPState) (A z dt : String) (rt mv : Option String)
        (sw : List String) (ts md : String),
      dt ∈ validDistributionTypes →
        record_placement st A z dt rt mv sw ts md =
          Except.ok ⟨st.items,
            st.placements ++ [⟨A, z, dt, rt, mv, ts, md⟩],
            st.co_presence ++ sw.flatMap (fun x =>
              [⟨A, x, z, ts⟩, ⟨x, A, z, ts⟩]),
            st.zones⟩) ∧
    (∀ (st : HPState) (iid lbl cat : String) (pd : Option Int) (ls : Option ℚ)
        (q t : Option Int) (ur : Option ℚ) (md : String) (st' : HPState),
      register_item st iid lbl cat pd ls q t ur md = Except.ok st' →
        st'.co_presence = st.co_presence) ∧
    (∀ (st : HPState) (zi zn d : String) (st' : HPState),
      register_zone st zi zn d = Except.ok st' →
        st'.co_presence = st.co_presence) := by
  refine ⟨?_, ?_, ?_⟩
  · intro st A z dt rt mv sw ts md h
    unfold record_placement
    rw [if_pos h]
  · intro st iid lbl cat pd ls q t ur md st' h
    unfold register_item at h
    by_cases hc : cat ∈ validCategories
    · rw [if_pos hc] at h
      cases h
      rfl
    · rw [if_neg hc] at h
      cases h
  · intro st zi zn d st' h
    cases h
    rfl

/-- C4 witness: one placement with seen_with = [X] creates exactly the two
rows (A, X) and (X, A) with the placement's zone and timestamp. -/
theorem C4_witness :
    record_placement emptyState "A" "z" "placed" none none ["X"] "t" "" =
      Except.ok ⟨[], [⟨"A", "z", "placed", none, none, "t", ""⟩],
        [⟨"A", "X", "z", "t"⟩, ⟨"X", "A", "z", "t"⟩], []⟩ :=
  C4_co_presence_pairs.1 emptyState "A" "z" "placed" none none ["X"] "t" ""
    (by decide)

/-- C8: placement_history returns at most limit entries, every entry is a
placement row of the requested item, and the timestamps are non-increasing
(newest first) along the returned list. -/
theorem C8_placement_history (st : HPState) (iid : String) (N : Nat) :
    (placement_history st iid N).length ≤ N ∧
    (∀ p ∈ placement_history st iid N, p.item_id = iid ∧ p ∈ st.placements) ∧
    List.Pairwise (fun a b : Placement => tsLe b.timestamp a.timestamp)
      (placement_history st iid N) := by
  refine ⟨List.length_take_le N _, ?_, ?_⟩
  · intro p hp
    have hmem : p ∈ sortPlacementsDesc
        (st.placements.filter (fun q => q.item_id == iid)) :=
      List.mem_of_mem_take hp
    have hmem2 : p ∈ st.placements.filter (fun q => q.item_id == iid) :=
      (List.perm_insertionSort placementGe _).mem_iff.mp hmem
    have h := List.mem_filter.mp hmem2
    exact ⟨by simpa using h.2, h.1⟩
  · have hs : List.Pairwise placementGe (sortPlacementsDesc
        (st.placements.filter (fun q => q.item_id == iid))) :=
      List.sorted_insertionSort placementGe _
    exact List.Pairwise.sublist (List.take_sublist N _) hs

/-- C10: every row returned by recent_neighbors carries the identity of a
registered item (the inner join against the items table drops co-presence
rows whose item_b has no item record), while record_placement itself accepts
a seen_with identity with no item record and stores the edge. -/
theorem C10_neighbors_registered (st : HPState) (iid : String) (lim : Nat) :
    (∀ row ∈ recent_neighbors st iid lim,
      ∃ i ∈ st.items, i.item_id = row.item_id) ∧
    (∀ (A z X ts md : String) (rt mv : Option String),
      ∃ st', record_placement st A z "placed" rt mv [X] ts md =
          Except.ok st' ∧
        (⟨A, X, z, ts⟩ : CoPresence) ∈ st'.co_presence) := by
  constructor
  · intro row hrow
    have h1 : row ∈ (neighborRows st iid).dedup :=
      (List.perm_insertionSort neighborGe _).mem_iff.mp
        (List.mem_of_mem_take hrow)
    have h2 : row ∈ neighborRows st iid := List.mem_dedup.mp h1
    obtain ⟨c, _, hf⟩ := List.mem_filterMap.mp h2
    by_cases hc : (c.item_a == iid) = true
    · rw [if_pos hc] at hf
      obtain ⟨i, hfind, hi⟩ := Option.map_eq_some'.mp hf
      refine ⟨i, List.mem_of_find?_eq_some hfind, ?_⟩
      rw [← hi]
      simpa using List.find?_some hfind
    · rw [if_neg hc] at hf
      cases hf
  · intro A z X ts md rt mv
    refine ⟨⟨st.items,
        st.placements ++ [⟨A, z, "placed", rt, mv, ts, md⟩],
        st.co_presence ++ [⟨A, X, z, ts⟩, ⟨X, A, z, ts⟩],
        st.zones⟩, ?_, ?_⟩
    · unfold record_placement
      rw [if_pos (by decide)]
      rfl
    · simp

/-- C7: for a refillable item, item_status reports
needs_refill = (current_quantity ≤ refill_threshold) with an absent quantity
or threshold treated as 0; the comparison is ≤, so quantity equal to the
threshold reports needs_refill = true. -/
theorem C7_needs_refill (st : HPState) (now : Int) (iid : String) (itm : Item)
    (hfind : st.items.find? (fun i => i.item_id == iid) = some itm)
    (hcat : itm.category = "refillable") :
    ∃ res, item_status st now iid = some res ∧
      res.refill_status = some (refillStatusOf itm) ∧
      ((refillStatusOf itm).needs_refill = true ↔
        orZeroInt itm.current_quantity ≤ orZeroInt itm.refill_threshold) := by
  unfold item_status
  rw [hfind]
  refine ⟨_, rfl, ?_, ?_⟩
  · show (statusProjections now itm).2 = some (refillStatusOf itm)
    unfold statusProjections
    rw [hcat]
    simp
  · unfold refillStatusOf
    simp

/-- C7 witness: a refillable item with quantity 10 and threshold 10 reports
needs_refill = true through item_status (the boundary is inclusive). -/
theorem C7_witness :
    ∃ res,
      item_status
          ⟨[⟨"soap", "Soap", "refillable", none, none, some 10, some 10, none,
            ""⟩], [], [], []⟩ 0 "soap" = some res ∧
      res.refill_status = some (refillStatusOf
        ⟨"soap", "Soap", "refillable", none, none, some 10, some 10, none,
          ""⟩) ∧
      ((refillStatusOf
          ⟨"soap", "Soap", "refillable", none, none, some 10, some 10, none,
            ""⟩).needs_refill = true ↔
        orZeroInt (some 10) ≤ orZeroInt (some 10)) :=
  C7_needs_refill _ 0 "soap" _ (by decide) rfl

/-- C1 counterexample: a refillable item with current_quantity = 0 and
usage_rate_per_day = 1 > 0.  The claim says days_remaining is reported as
0 / 1 = 0 and is absent only when the usage rate is not positive; the code
renders the field with `round(days_remaining, 1) if days_remaining else
None`, and Python truthiness makes the value 0 falsy, so item_status reports
days_remaining as absent (None) although the usage rate is positive. -/
theorem C1_counterexample :
    0 < orZeroRat ((⟨"soap", "Soap", "refillable", none, none, some 0, some 5,
        some 1, ""⟩ : Item).usage_rate_per_day) ∧
    (item_status ⟨[⟨"soap", "Soap", "refillable", none, none, some 0, some 5,
        some 1, ""⟩], [], [], []⟩ 0 "soap").map
      (fun r => r.refill_status.map (fun rs => rs.days_remaining)) =
      some (some none) := by
  constructor
  · norm_num [orZeroRat]
  · norm_num [item_status, statusProjections, truthyRat, refillStatusOf,
      sortPlacementsDesc, orZeroRat, orZeroInt, List.find?]

/-- C1 (amended): for a refillable item, item_status reports days_remaining
equal to current_quantity ÷ usage_rate_per_day (rounded to one decimal for
display) when usage_rate_per_day > 0 AND current_quantity ≠ 0, and reports
it as absent when usage_rate_per_day is not positive or the quotient is 0
(the falsy-zero rendering). -/
theorem C1_days_remaining (st : HPState) (now : Int) (iid : String)
    (itm : Item)
    (hfind : st.items.find? (fun i => i.item_id == iid) = some itm)
    (hcat : itm.category = "refillable") :
    ∃ res, item_status st now iid = some res ∧
      res.refill_status = some (refillStatusOf itm) ∧
      (refillStatusOf itm).days_remaining =
        (if 0 < orZeroRat itm.usage_rate_per_day ∧
            orZeroInt itm.current_quantity ≠ 0 then
          some (round1 ((orZeroInt itm.current_quantity : ℚ) /
            orZeroRat itm.usage_rate_per_day))
        else none) := by
  unfold item_status
  rw [hfind]
  refine ⟨_, rfl, ?_, ?_⟩
  · show (statusProjections now itm).2 = some (refillStatusOf itm)
    unfold statusProjections
    rw [hcat]
    simp
  · unfold refillStatusOf
    by_cases hr : 0 < orZeroRat itm.usage_rate_per_day
    · by_cases hq : orZeroInt itm.current_quantity = 0
      · simp [hr, hq]
      · have hne : ((orZeroInt itm.current_quantity : ℚ) /
            orZeroRat itm.usage_rate_per_day) ≠ 0 :=
          div_ne_zero (by exact_mod_cast hq) (ne_of_gt hr)
        simp [hr, hq, hne]
    · simp [hr]

/-- C1 witness: a refillable item with quantity 30 and usage rate 1 per day
gets a present days_remaining through item_status. -/
theorem C1_witness :
    ∃ res,
      item_status
          ⟨[⟨"gel", "Gel", "refillable", none, none, some 30, some 5, some 1,
            ""⟩], [], [], []⟩ 0 "gel" = some res ∧
      res.refill_status = some (refillStatusOf
        ⟨"gel", "Gel", "refillable", none, none, some 30, some 5, some 1,
          ""⟩) ∧
      (refillStatusOf
          ⟨"gel", "Gel", "refillable", none, none, some 30, some 5, some 1,
            ""⟩).days_remaining =
        (if 0 < orZeroRat (some (1 : ℚ)) ∧ orZeroInt (some (30 : Int)) ≠ 0 then
          some (round1 ((orZeroInt (some (30 : Int)) : ℚ) /
            orZeroRat (some (1 : ℚ))))
        else none) :=
  C1_days_remaining _ 0 "gel" _ (by rfl) rfl

/-- A store in which item X was seen with item A at two different
timestamps: built through the write operations themselves. -/
def twoSightingsState : HPState :=
  runOk (record_placement
    (runOk (record_placement
      (runOk (register_item
        (runOk (register_item emptyState "A" "Item A" "good_stuff" none none
          none none none ""))
        "X" "Item X" "good_stuff" none none none none none ""))
      "A" "z" "placed" none none ["X"] "t1" ""))
    "A" "z" "placed" none none ["X"] "t2" "")

/-- C2 counterexample: after item X is recorded as seen with item A at
timestamps t1 and t2, recent_neighbors(A) returns TWO rows for the single
neighbor identity X — SELECT DISTINCT dedupes whole
(item_b, label, zone, timestamp) rows, not neighbor identities, so a
neighbor observed at several timestamps is NOT collapsed to its latest
occurrence. -/
theorem C2_counterexample :
    recent_neighbors twoSightingsState "A" 10 =
      [⟨"X", "Item X", "z", "t2"⟩, ⟨"X", "Item X", "z", "t1"⟩] ∧
    (recent_neighbors twoSightingsState "A" 10).countP
      (fun r => r.item_id == "X") = 2 := by
  constructor
  · decide
  · decide

/-- C2 (amended): recent_neighbors(item_id, limit) returns the distinct
(neighbor, label, zone, timestamp) rows of the co-presence ledger joined
with the items table — each such row at most once — ordered newest
observation first and capped at limit; a neighbor observed at several
distinct timestamps produces one row per distinct observation (duplicates
are collapsed only when the whole row coincides), and every returned row
carries the zone and timestamp of one actual sighting of that neighbor with
the item. -/
theorem C2_neighbors_rows (st : HPState) (iid : String) (lim : Nat) :
    (recent_neighbors st iid lim).Nodup ∧
    (recent_neighbors st iid lim).length ≤ lim ∧
    List.Pairwise (fun a b : NeighborRow => tsLe b.timestamp a.timestamp)
      (recent_neighbors st iid lim) ∧
    (∀ row ∈ recent_neighbors st iid lim,
      ∃ c ∈ st.co_presence, c.item_a = iid ∧ c.item_b = row.item_id ∧
        c.zone = row.zone ∧ c.timestamp = row.timestamp ∧
        ∃ i ∈ st.items, i.item_id = c.item_b ∧ i.label = row.label) := by
  refine ⟨?_, List.length_take_le lim _, ?_, ?_⟩
  · exact List.Nodup.sublist (List.take_sublist lim _)
      ((List.perm_insertionSort neighborGe _).nodup_iff.mpr
        (List.nodup_dedup _))
  · exact List.Pairwise.sublist (List.take_sublist lim _)
      (List.sorted_insertionSort neighborGe _)
  · intro row hrow
    have h2 : row ∈ neighborRows st iid :=
      List.mem_dedup.mp
        ((List.perm_insertionSort neighborGe _).mem_iff.mp
          (List.mem_of_mem_take hrow))
    obtain ⟨c, hc, hf⟩ := List.mem_filterMap.mp h2
    by_cases ha : (c.item_a == iid) = true
    · rw [if_pos ha] at hf
      obtain ⟨i, hfind, hi⟩ := Option.map_eq_some'.mp hf
      refine ⟨c, hc, by simpa using ha, ?_, ?_, ?_,
        i, List.mem_of_find?_eq_some hfind,
        by simpa using List.find?_some hfind, ?_⟩
      · rw [← hi]
      · rw [← hi]
      · rw [← hi]
      · rw [← hi]
    · rw [if_neg ha] at hf
      cases hf

/-- C9: the per-distribution-type counts of
distribution_patterns().overall_counts sum to the total number of placement
rows in the ledger — the aggregate is a plain GROUP BY count over the whole
placements table with no time windowing. -/
theorem C9_overall_counts_total (st : HPState) :
    (((distribution_patterns st).overall_counts).map Prod.snd).sum =
      st.placements.length := by
  have key : ∀ d : String,
      st.placements.countP (fun p => p.distribution_type == d) =
        (st.placements.map (fun p => p.distribution_type)).count d := by
    intro d
    simp only [List.count, List.countP_map]
    rfl
  calc (((distribution_patterns st).overall_counts).map Prod.snd).sum
      = ((st.placements.map (fun p => p.distribution_type)).dedup.map
          (fun d => (st.placements.map
            (fun p => p.distribution_type)).count d)).sum := by
        unfold distribution_patterns
        rw [List.map_map]
        congr 1
        apply List.map_congr_left
        intro d _
        exact key d
    _ = (st.placements.map (fun p => p.distribution_type)).length :=
        List.sum_map_count_dedup_eq_length _
    _ = st.placements.length := by simp

/-- C5: items_in_zone(Z) contains a row for item identity iid exactly when
iid is a registered item and one of its placements lies in zone Z with a
timestamp that is maximal among ALL of the item's placements (across every
zone).  In particular an item whose strictly-latest placement moved to a
different zone is excluded, regardless of earlier placements in Z. -/
theorem C5_items_in_zone_current (st : HPState) (Z iid : String) :
    (∃ row ∈ items_in_zone st Z, row.item_id = iid) ↔
      ((∃ i ∈ st.items, i.item_id = iid) ∧
       ∃ p ∈ st.placements, p.item_id = iid ∧ p.zone = Z ∧
         ∀ q ∈ st.placements, q.item_id = iid →
           tsLe q.timestamp p.timestamp) := by
  constructor
  · rintro ⟨row, hrow, hid⟩
    obtain ⟨p, hp, hf⟩ := List.mem_filterMap.mp (List.mem_dedup.mp hrow)
    by_cases hc : (p.zone == Z && isLatestForItem st p) = true
    · rw [if_pos hc] at hf
      obtain ⟨i, hfind, hi⟩ := Option.map_eq_some'.mp hf
      have hiid : i.item_id = p.item_id := by
        simpa using List.find?_some hfind
      have hrowid : row.item_id = i.item_id := by
        rw [← hi]
      have hpz : p.zone = Z := by
        simpa using (Bool.and_eq_true_iff.mp hc).1
      have hpid : p.item_id = iid := by
        rw [← hiid, ← hrowid, hid]
      refine ⟨⟨i, List.mem_of_find?_eq_some hfind, by rw [← hrowid, hid]⟩,
        p, hp, hpid, hpz, ?_⟩
      intro q hq hqid
      have hlatest := (Bool.and_eq_true_iff.mp hc).2
      unfold isLatestForItem at hlatest
      have hall := List.all_eq_true.mp hlatest q hq
      have hqp : q.item_id = p.item_id := hqid.trans hpid.symm
      simp only [hqp, bne_self_eq_false, Bool.false_or] at hall
      exact of_decide_eq_true hall
    · rw [if_neg hc] at hf
      cases hf
  · rintro ⟨⟨i0, hi0, hid0⟩, p, hp, hpid, hpz, hmax⟩
    have hsome : (st.items.find? (fun j => j.item_id == p.item_id)).isSome := by
      rw [List.find?_isSome]
      exact ⟨i0, hi0, by simp [hid0, hpid]⟩
    obtain ⟨j, hfind⟩ := Option.isSome_iff_exists.mp hsome
    have hjid : j.item_id = p.item_id := by
      simpa using List.find?_some hfind
    refine ⟨⟨j.item_id, j.label, j.category, p.distribution_type,
      p.timestamp⟩, ?_, by simpa using hjid.trans hpid⟩
    apply List.mem_dedup.mpr
    apply List.mem_filterMap.mpr
    refine ⟨p, hp, ?_⟩
    have hcond : (p.zone == Z && isLatestForItem st p) = true := by
      refine Bool.and_eq_true_iff.mpr ⟨by simp [hpz], ?_⟩
      unfold isLatestForItem
      rw [List.all_eq_true]
      intro q hq
      by_cases hqid : q.item_id = p.item_id
      · have ht : tsLe q.timestamp p.timestamp :=
          hmax q hq (hqid.trans hpid)
        simp [ht]
      · simp [hqid]
    rw [if_pos hcond, hfind]
    rfl

/-- C6: items_needing_attention lists an item identity under
replacement_soon exactly when it is a good_stuff item with both
purchase_date and expected_lifespan_years set whose unfloored
remaining_years = lifespan − age satisfies
0 < remaining_years < 0.2 × lifespan; in particular an item with
remaining_years ≤ 0 (already past end of life) is never listed. -/
theorem C6_replacement_soon (st : HPState) (now : Int) (iid : String) :
    (∃ row ∈ (items_needing_attention st now).replacement_soon,
        row.item_id = iid) ↔
      ∃ i ∈ st.items, i.item_id = iid ∧ i.category = "good_stuff" ∧
        ∃ pd ls, i.purchase_date = some pd ∧
          i.expected_lifespan_years = some ls ∧
          0 < remainingYears now pd ls ∧
          remainingYears now pd ls < (0.2 : ℚ) * ls := by
  show (∃ row ∈ replacementAlerts st now, row.item_id = iid) ↔ _
  unfold replacementAlerts
  constructor
  · rintro ⟨row, hrow, hid⟩
    obtain ⟨i, hi, hf⟩ := List.mem_filterMap.mp hrow
    rcases hpd : i.purchase_date with _ | pd <;>
      rcases hls : i.expected_lifespan_years with _ | ls <;>
      simp only [hpd, hls] at hf <;> try cases hf
    split_ifs at hf with hcat hcond
    cases Option.some.inj hf
    exact ⟨i, hi, hid, by simpa using hcat, pd, ls, hpd, hls,
      hcond.2, by rw [mul_comm]; exact hcond.1⟩
  · rintro ⟨i, hi, hid, hcat, pd, ls, hpd, hls, h1, h2⟩
    refine ⟨⟨i.item_id, i.label, round1 (remainingYears now pd ls),
      round1 (remainingYears now pd ls / ls * 100)⟩, ?_, hid⟩
    apply List.mem_filterMap.mpr
    refine ⟨i, hi, ?_⟩
    simp only [hpd, hls]
    rw [if_pos (by simp [hcat]), if_pos ⟨by rw [mul_comm ls]; exact h2, h1⟩]

/-- A store in which item A moved: first placed in zone z1, later in z2. -/
def movedItemState : HPState :=
  runOk (record_placement
    (runOk (record_placement
      (runOk (register_item emptyState "A" "Item A" "good_stuff" none none
        none none none ""))
      "A" "z1" "placed" none none [] "t1" ""))
    "A" "z2" "placed" none none [] "t2" "")

/-- C2 witness: the amended row-level description instantiated on the
two-sightings store. -/
theorem C2_witness :
    (recent_neighbors twoSightingsState "A" 10).Nodup ∧
    (recent_neighbors twoSightingsState "A" 10).length ≤ 10 ∧
    List.Pairwise (fun a b : NeighborRow => tsLe b.timestamp a.timestamp)
      (recent_neighbors twoSightingsState "A" 10) ∧
    (∀ row ∈ recent_neighbors twoSightingsState "A" 10,
      ∃ c ∈ twoSightingsState.co_presence, c.item_a = "A" ∧
        c.item_b = row.item_id ∧ c.zone = row.zone ∧
        c.timestamp = row.timestamp ∧
        ∃ i ∈ twoSightingsState.items, i.item_id = c.item_b ∧
          i.label = row.label) :=
  C2_neighbors_rows twoSightingsState "A" 10

/-- C5 witness: the characterization instantiated on a store where item A's
latest placement moved from z1 to z2; in particular items_in_zone z1 has no
row for A while items_in_zone z2 does. -/
theorem C5_witness :
    ((∃ row ∈ items_in_zone movedItemState "z1", row.item_id = "A") ↔
      ((∃ i ∈ movedItemState.items, i.item_id = "A") ∧
       ∃ p ∈ movedItemState.placements, p.item_id = "A" ∧ p.zone = "z1" ∧
         ∀ q ∈ movedItemState.placements, q.item_id = "A" →
           tsLe q.timestamp p.timestamp)) ∧
    ¬ (∃ row ∈ items_in_zone movedItemState "z1", row.item_id = "A") ∧
    (∃ row ∈ items_in_zone movedItemState "z2", row.item_id = "A") :=
  ⟨C5_items_in_zone_current movedItemState "z1" "A",
    fun h => by
      have h2 := (C5_items_in_zone_current movedItemState "z1" "A").mp h
      revert h2
      decide,
    (C5_items_in_zone_current movedItemState "z2" "A").mpr (by decide)⟩

/-- A store with one aging good_stuff item: purchased at day 0 with a
5-year lifespan, evaluated at day 1644 (about 4.5 years later), so about
0.5 years remain, under the 20% threshold of 1 year. -/
def agingItemState : HPState :=
  runOk (register_item emptyState "wallet" "Leather Wallet" "good_stuff"
    (some 0) (some 5) none none none "")

/-- C6 witness: the aging item appears in replacement_soon at day 1644
(0 < remaining ≈ 0.5 < 1 = 20% of the 5-year lifespan), and does not appear
at day 2000 (past end of life, remaining ≤ 0). -/
theorem C6_witness :
    (∃ row ∈ (items_needing_attention agingItemState 1644).replacement_soon,
      row.item_id = "wallet") ∧
    ¬ (∃ row ∈ (items_needing_attention agingItemState 2000).replacement_soon,
      row.item_id = "wallet") :=
  ⟨(C6_replacement_soon agingItemState 1644 "wallet").mpr
      ⟨⟨"wallet", "Leather Wallet", "good_stuff", some 0, some 5, none, none,
        none, ""⟩, by decide, rfl, rfl, 0, 5, rfl, rfl,
        by norm_num [remainingYears], by norm_num [remainingYears]⟩,
    fun h => by
      obtain ⟨i, hi, hid, hcat, pd, ls, hpd, hls, h1, h2⟩ :=
        (C6_replacement_soon agingItemState 2000 "wallet").mp h
      have hitem : i = ⟨"wallet", "Leather Wallet", "good_stuff", some 0,
          some 5, none, none, none, ""⟩ := by
        simpa [agingItemState, runOk, register_item, emptyState,
          validCategories] using hi
      subst hitem
      cases hpd
      cases hls
      norm_num [remainingYears] at h1⟩

/-- C8 witness: the bound, provenance and ordering facts instantiated on the
moved-item store with limit 1. -/
theorem C8_witness :
    (placement_history movedItemState "A" 1).length ≤ 1 ∧
    (∀ p ∈ placement_history movedItemState "A" 1,
      p.item_id = "A" ∧ p ∈ movedItemState.placements) ∧
    List.Pairwise (fun a b : Placement => tsLe b.timestamp a.timestamp)
      (placement_history movedItemState "A" 1) :=
  C8_placement_history movedItemState "A" 1

/-- C9 witness: the counts of the two-sightings store (two placement rows)
sum to 2, its total placement count. -/
theorem C9_witness :
    (((distribution_patterns twoSightingsState).overall_counts).map
      Prod.snd).sum = twoSightingsState.placements.length :=
  C9_overall_counts_total twoSightingsState

/-- C10 witness: the join/registration facts instantiated on the
two-sightings store. -/
theorem C10_witness :
    (∀ row ∈ recent_neighbors twoSightingsState "A" 10,
      ∃ i ∈ twoSightingsState.items, i.item_id = row.item_id) ∧
    (∀ (A z X ts md : String) (rt mv : Option String),
      ∃ st', record_placement twoSightingsState A z "placed" rt mv [X] ts md =
          Except.ok st' ∧
        (⟨A, X, z, ts⟩ : CoPresence) ∈ st'.co_presence) :=
  C10_neighbors_registered twoSightingsState "A" 10

end HappyPlaces
